import Mathlib

/-!
Verification of the demo e-commerce HTTP service (`src/app/app.py`).

The service is embedded shallowly:
* the two static collections `users_db` and `products_db` are Lean lists of
  structures, with prices as exact rationals (the decimal literals of the
  source; the Python float sum `999.99 + 29.99` equals the double `1029.98`
  exactly, so the rational model is observationally faithful on the values
  the service handles);
* each Flask handler becomes a pure function from its inputs (and, where the
  source calls `random`, an explicit random-source argument) to a result
  record carrying the HTTP status, the JSON body, and the list of
  `error_counter.add` label sets emitted on that path, in order;
* the `/api/error` endpoint, which unconditionally raises, is composed with
  the global `errorhandler(Exception)` into a single request-level function;
* mutation-freedom is expressed by a state-passing dispatcher over the pair
  of collections.
-/

/-- A record of the user collection: `{id, name, email}`. -/
structure User where
  id : Int
  name : String
  email : String
deriving DecidableEq, Repr

/-- A record of the product collection: `{id, name, price}`. -/
structure Product where
  id : Int
  name : String
  price : ℚ
deriving DecidableEq, Repr

/-- The static user collection `users_db` of `app.py`. -/
def users_db : List User :=
  [ { id := 1, name := "Alice", email := "alice@example.com" },
    { id := 2, name := "Bob", email := "bob@example.com" },
    { id := 3, name := "Charlie", email := "charlie@example.com" } ]

/-- The static product collection `products_db` of `app.py`. -/
def products_db : List Product :=
  [ { id := 1, name := "Laptop", price := 999.99 },
    { id := 2, name := "Mouse", price := 29.99 },
    { id := 3, name := "Keyboard", price := 79.99 } ]

/-- The order entity built by `create_order`. -/
structure Order where
  order_id : Int
  user : User
  items : List Product
  total : ℚ
  status : String
deriving DecidableEq, Repr

/-- JSON bodies the handlers can return. -/
inductive Body where
  | usersB (us : List User)
  | userB (u : User)
  | productsB (ps : List Product)
  | productB (p : Product)
  | orderB (o : Order)
  | errorB (msg : String)
  | healthB
  | slowB
deriving DecidableEq, Repr

/-- One `error_counter.add` call: the label set passed to it. -/
abbrev ErrLabels := List (String × String)

/-- Result of handling one request: HTTP status, JSON body, and the
`api_errors_total` increments emitted on the path, in order. -/
structure HResult where
  status : Nat
  body : Body
  errors : List ErrLabels
deriving DecidableEq, Repr

/-- Python's `random.randint(lo, hi)` (both ends inclusive), with the random
source made explicit as a natural number. -/
def randint (lo hi : Int) (r : Nat) : Int :=
  lo + (r % (hi - lo + 1).toNat : Nat)

/-- `GET /api/users/<user_id>`: linear search by id
(`next((u for u in users_db if u["id"] == user_id), None)`);
200 + user if found, else 404 + error body and an error-counter increment. -/
def get_user (users : List User) (user_id : Int) : HResult :=
  match users.find? (fun u => u.id == user_id) with
  | some u => { status := 200, body := .userB u, errors := [] }
  | none =>
      { status := 404, body := .errorB "User not found",
        errors := [[("endpoint", "/api/users/:id"), ("error", "not_found")]] }

/-- `GET /api/products/<product_id>`: same pattern as `get_user`. -/
def get_product (products : List Product) (product_id : Int) : HResult :=
  match products.find? (fun p => p.id == product_id) with
  | some p => { status := 200, body := .productB p, errors := [] }
  | none =>
      { status := 404, body := .errorB "Product not found",
        errors := [[("endpoint", "/api/products/:id"), ("error", "not_found")]] }

/-- `GET /api/users`: returns the whole collection. -/
def get_users (users : List User) : HResult :=
  { status := 200, body := .usersB users, errors := [] }

/-- `GET /api/products`: returns the whole collection. -/
def get_products (products : List Product) : HResult :=
  { status := 200, body := .productsB products, errors := [] }

/-- `GET /health`. -/
def health : HResult :=
  { status := 200, body := .healthB, errors := [] }

/-- `GET /api/slow`. -/
def slow_endpoint : HResult :=
  { status := 200, body := .slowB, errors := [] }

/-- The parsed JSON body of `POST /api/order`; each key may be absent. -/
structure OrderBody where
  user_id : Option Int
  product_ids : Option (List Int)
deriving DecidableEq, Repr

/-- One iteration of the `calculate_total` loop: look the id up in the
product collection; on a hit add the price and append the product, on a
miss leave the accumulator unchanged (the warning log is not modelled). -/
def calcStep (products : List Product) : ℚ × List Product → Int → ℚ × List Product
  | (total, items), pid =>
      match products.find? (fun p => p.id == pid) with
      | some p => (total + p.price, items ++ [p])
      | none => (total, items)

/-- The `calculate_total` step of `create_order`: fold the loop over
`product_ids` starting from total `0` and no items. -/
def calculate_total (products : List Product) (product_ids : List Int) :
    ℚ × List Product :=
  product_ids.foldl (calcStep products) (0, [])

/-- `POST /api/order`. `data` is `none` when the request carries no JSON
body; missing keys are `none` fields. The steps follow the source: presence
check (400), user lookup (404), total calculation, payment simulation (no
observable effect), then the order is built with a random id in
`[1000, 9999]` and returned with 201. -/
def create_order (users : List User) (products : List Product)
    (data : Option OrderBody) (r : Nat) : HResult :=
  match data with
  | none =>
      { status := 400, body := .errorB "Invalid order data",
        errors := [[("endpoint", "/api/order"), ("error", "invalid_data")]] }
  | some d =>
      match d.user_id, d.product_ids with
      | some user_id, some product_ids =>
          (match users.find? (fun u => u.id == user_id) with
          | none =>
              { status := 404, body := .errorB "User not found",
                errors := [[("endpoint", "/api/order"), ("error", "user_not_found")]] }
          | some user =>
              let tp := calculate_total products product_ids
              { status := 201,
                body := .orderB
                  { order_id := randint 1000 9999 r, user := user,
                    items := tp.2, total := tp.1, status := "completed" },
                errors := [] })
      | _, _ =>
          { status := 400, body := .errorB "Invalid order data",
            errors := [[("endpoint", "/api/order"), ("error", "invalid_data")]] }

/-- The message of the exception raised unconditionally by `/api/error`. -/
def intentional_error_message : String :=
  "This is an intentional error for testing!"

/-- The body of the `error_endpoint` handler before the raise: it increments
the error counter with endpoint and kind labels, then raises the fixed
exception. The returned pair is (emitted increments, raised message). -/
def error_endpoint : List ErrLabels × String :=
  ([[("endpoint", "/api/error"), ("error", "intentional")]],
   intentional_error_message)

/-- The global `errorhandler(Exception)`: one error-counter increment with
only the `error` label, and a 500 response echoing the exception message. -/
def handle_exception (e : String) : HResult :=
  { status := 500, body := .errorB e,
    errors := [[("error", "unhandled_exception")]] }

/-- A full `GET /api/error` request: the handler raises, the global handler
catches; the observed increments are those of the handler followed by those
of the catch-all. -/
def error_request : HResult :=
  let h := handle_exception error_endpoint.2
  { status := h.status, body := h.body,
    errors := error_endpoint.1 ++ h.errors }

/-- The server state: the two in-memory collections. -/
structure DB where
  users : List User
  products : List Product
deriving DecidableEq, Repr

/-- The initial state built at startup. -/
def initDB : DB := { users := users_db, products := products_db }

/-- One incoming request, with any random draw the handler makes supplied
explicitly. -/
inductive Request where
  | health
  | getUsers
  | getUser (user_id : Int)
  | getProducts
  | getProduct (product_id : Int)
  | postOrder (data : Option OrderBody) (r : Nat)
  | slow
  | apiError
deriving DecidableEq, Repr

/-- The router: dispatch a request against the current state, returning the
response and the state afterwards. Every handler of the source only reads
the collections, which the dispatcher makes explicit by returning the state
it was given. -/
def dispatch (s : DB) : Request → HResult × DB
  | .health => (health, s)
  | .getUsers => (get_users s.users, s)
  | .getUser uid => (get_user s.users uid, s)
  | .getProducts => (get_products s.products, s)
  | .getProduct pid => (get_product s.products pid, s)
  | .postOrder data r => (create_order s.users s.products data r, s)
  | .slow => (slow_endpoint, s)
  | .apiError => (error_request, s)

/-- Run a sequence of requests, returning the final state. -/
def runAll (s : DB) : List Request → DB
  | [] => s
  | req :: reqs => runAll (dispatch s req).2 reqs

/-- Does a label set carry the given key? -/
def hasKey (k : String) (ev : ErrLabels) : Bool :=
  ev.any (fun l => l.1 == k)

/-- The products of the collection matched by the ids of `product_ids`, in
request order, each occurrence counted: the specification-level description
of the items accumulated by the `calculate_total` loop. -/
def matchedProducts (products : List Product) (product_ids : List Int) :
    List Product :=
  product_ids.filterMap (fun pid => products.find? (fun p => p.id == pid))

/-- Extract the order from a 201 response body, if any. -/
def responseOrder (h : HResult) : Option Order :=
  match h.body with
  | .orderB o => some o
  | _ => none

theorem foldl_calcStep (products : List Product) (product_ids : List Int)
    (t0 : ℚ) (i0 : List Product) :
    product_ids.foldl (calcStep products) (t0, i0) =
      (t0 + ((matchedProducts products product_ids).map Product.price).sum,
       i0 ++ matchedProducts products product_ids) := by
  induction product_ids generalizing t0 i0 with
  | nil => simp [matchedProducts]
  | cons pid rest ih =>
      simp only [List.foldl_cons, calcStep, matchedProducts,
        List.filterMap_cons]
      cases h : products.find? (fun p => p.id == pid) with
      | none => simpa [h, matchedProducts] using ih t0 i0
      | some p =>
          simp only [h, ih, matchedProducts, List.map_cons, List.sum_cons]
          exact Prod.ext (by ring) (by simp)

theorem calculate_total_spec (products : List Product)
    (product_ids : List Int) :
    calculate_total products product_ids =
      (((matchedProducts products product_ids).map Product.price).sum,
       matchedProducts products product_ids) := by
  simpa [calculate_total] using foldl_calcStep products product_ids 0 []

theorem create_order_found (users : List User) (products : List Product)
    (user_id : Int) (product_ids : List Int) (r : Nat) (u : User)
    (hu : users.find? (fun v => v.id == user_id) = some u) :
    create_order users products
        (some { user_id := some user_id, product_ids := some product_ids }) r =
      { status := 201,
        body := .orderB
          { order_id := randint 1000 9999 r, user := u,
            items := matchedProducts products product_ids,
            total := ((matchedProducts products product_ids).map
              Product.price).sum,
            status := "completed" },
        errors := [] } := by
  simp [create_order, hu, calculate_total_spec]

theorem create_order_user_none (users : List User) (products : List Product)
    (user_id : Int) (product_ids : List Int) (r : Nat)
    (h : users.find? (fun v => v.id == user_id) = none) :
    create_order users products
        (some { user_id := some user_id, product_ids := some product_ids })
        r =
      { status := 404, body := .errorB "User not found",
        errors :=
          [[("endpoint", "/api/order"), ("error", "user_not_found")]] } := by
  simp [create_order, h]

theorem randint_bounds (lo hi : Int) (r : Nat) (h : lo ≤ hi) :
    lo ≤ randint lo hi r ∧ randint lo hi r ≤ hi := by
  have h2 : ((hi - lo + 1).toNat : Int) = hi - lo + 1 :=
    Int.toNat_of_nonneg (by omega)
  have h3 : r % (hi - lo + 1).toNat < (hi - lo + 1).toNat :=
    Nat.mod_lt _ (by omega)
  unfold randint
  omega

/-- C1: for a `POST /api/order` body with an existing `user_id` and a list
`product_ids`, the returned order's total is the sum of the prices of the
products of the collection whose id occurs in `product_ids` (each occurrence
counted), its items are exactly those matched products in request order,
unmatched ids are skipped without affecting the 201 status; in particular
user 1 with products `[1, 2]` gets 201 with total `1029.98`. -/
theorem C1_order_total_items (user_id : Int) (product_ids : List Int)
    (r : Nat) (u : User)
    (hu : users_db.find? (fun v => v.id == user_id) = some u) :
    ((create_order users_db products_db
        (some { user_id := some user_id, product_ids := some product_ids })
        r).status = 201 ∧
     responseOrder (create_order users_db products_db
        (some { user_id := some user_id, product_ids := some product_ids })
        r) =
       some { order_id := randint 1000 9999 r, user := u,
              items := matchedProducts products_db product_ids,
              total := ((matchedProducts products_db product_ids).map
                Product.price).sum,
              status := "completed" }) ∧
    ((create_order users_db products_db
        (some { user_id := some 1, product_ids := some [1, 2] }) r).status =
       201 ∧
     (responseOrder (create_order users_db products_db
        (some { user_id := some 1, product_ids := some [1, 2] }) r)).map
         Order.total = some (1029.98 : ℚ)) := by
  have halice : users_db.find? (fun v => v.id == (1 : Int)) =
      some { id := 1, name := "Alice", email := "alice@example.com" } := by
    decide
  refine ⟨⟨?_, ?_⟩, ?_, ?_⟩
  · rw [create_order_found users_db products_db user_id product_ids r u hu]
  · rw [create_order_found users_db products_db user_id product_ids r u hu]
    rfl
  · rw [create_order_found users_db products_db 1 [1, 2] r _ halice]
  · rw [create_order_found users_db products_db 1 [1, 2] r _ halice]
    have hm : matchedProducts products_db [1, 2] =
        [{ id := 1, name := "Laptop", price := 999.99 },
         { id := 2, name := "Mouse", price := 29.99 }] := rfl
    simp only [responseOrder, hm, Option.map_some, List.map_cons,
      List.map_nil, List.sum_cons, List.sum_nil]
    norm_num

/-- Witness for C1 at user 1, products `[1, 2]`, random source 0. -/
theorem C1_witness :
    (create_order users_db products_db
        (some { user_id := some 1, product_ids := some [1, 2] }) 0).status =
      201 ∧
    (responseOrder (create_order users_db products_db
        (some { user_id := some 1, product_ids := some [1, 2] }) 0)).map
      Order.total = some (1029.98 : ℚ) :=
  (C1_order_total_items 1 [1, 2] 0
    { id := 1, name := "Alice", email := "alice@example.com" } (by decide)).2

/-- C2: `GET /api/users/{id}` returns 200 with the unique user record whose
id equals the requested id when one exists, and otherwise 404 with
`{"error": "User not found"}` (plus a `not_found` error-counter increment). -/
theorem C2_get_user_lookup (user_id : Int) :
    (∀ u ∈ users_db, u.id = user_id →
      get_user users_db user_id =
        { status := 200, body := .userB u, errors := [] }) ∧
    ((∀ u ∈ users_db, u.id ≠ user_id) →
      get_user users_db user_id =
        { status := 404, body := .errorB "User not found",
          errors :=
            [[("endpoint", "/api/users/:id"), ("error", "not_found")]] }) := by
  constructor
  · intro u hu hid
    simp only [users_db, List.mem_cons, List.not_mem_nil, or_false] at hu
    rcases hu with rfl | rfl | rfl <;> (subst hid; rfl)
  · intro h
    have hfind : users_db.find? (fun u => u.id == user_id) = none := by
      rw [List.find?_eq_none]
      intro u hu
      simpa using h u hu
    simp [get_user, hfind]

/-- Witness for C2: id 1 is found (Alice), id 999 is not. -/
theorem C2_witness :
    get_user users_db 1 =
      { status := 200,
        body := .userB { id := 1, name := "Alice",
                         email := "alice@example.com" },
        errors := [] } ∧
    get_user users_db 999 =
      { status := 404, body := .errorB "User not found",
        errors :=
          [[("endpoint", "/api/users/:id"), ("error", "not_found")]] } :=
  ⟨(C2_get_user_lookup 1).1
      { id := 1, name := "Alice", email := "alice@example.com" }
      (by decide) rfl,
   (C2_get_user_lookup 999).2 (by decide)⟩

/-- C3: a `POST /api/order` with no JSON body, or a body missing `user_id`
or `product_ids`, gets 400 with `{"error": "Invalid order data"}`; the
response is a constant independent of the collections and the random
source, so no user validation, total calculation or payment runs. -/
theorem C3_missing_fields (users : List User) (products : List Product)
    (data : Option OrderBody) (r : Nat)
    (h : data = none ∨
      ∃ d, data = some d ∧ (d.user_id = none ∨ d.product_ids = none)) :
    create_order users products data r =
      { status := 400, body := .errorB "Invalid order data",
        errors := [[("endpoint", "/api/order"), ("error", "invalid_data")]] } := by
  rcases h with rfl | ⟨d, rfl, hd⟩
  · rfl
  · rcases d with ⟨ui, pi⟩
    rcases hd with h1 | h1
    · have h2 : ui = none := h1
      subst h2
      cases pi <;> rfl
    · have h2 : pi = none := h1
      subst h2
      cases ui <;> rfl

/-- Witness for C3: a body with `user_id` but no `product_ids`. -/
theorem C3_witness :
    create_order users_db products_db
        (some { user_id := some 1, product_ids := none }) 0 =
      { status := 400, body := .errorB "Invalid order data",
        errors :=
          [[("endpoint", "/api/order"), ("error", "invalid_data")]] } :=
  C3_missing_fields users_db products_db _ 0
    (Or.inr ⟨_, rfl, Or.inr rfl⟩)

/-- C4: a `POST /api/order` whose `user_id` matches no user gets 404 with
`{"error": "User not found"}`; the response does not depend on
`product_ids`, the product collection or the random source, so total
calculation and payment never run. -/
theorem C4_unknown_user (products : List Product) (user_id : Int)
    (product_ids : List Int) (r : Nat)
    (h : ∀ u ∈ users_db, u.id ≠ user_id) :
    create_order users_db products
        (some { user_id := some user_id, product_ids := some product_ids })
        r =
      { status := 404, body := .errorB "User not found",
        errors :=
          [[("endpoint", "/api/order"), ("error", "user_not_found")]] } := by
  have hfind : users_db.find? (fun u => u.id == user_id) = none := by
    rw [List.find?_eq_none]
    intro u hu
    simpa using h u hu
  simp [create_order, hfind]

/-- Witness for C4 at user 999 with products `[1]`. -/
theorem C4_witness :
    create_order users_db products_db
        (some { user_id := some 999, product_ids := some [1] }) 0 =
      { status := 404, body := .errorB "User not found",
        errors :=
          [[("endpoint", "/api/order"), ("error", "user_not_found")]] } :=
  C4_unknown_user products_db 999 [1] 0 (by decide)

/-- C5: every successful `POST /api/order` returns 201 with an order whose
`order_id` lies in `[1000, 9999]`, whose `user` is the matched user record,
whose `status` is `"completed"`, and whose `total` is the sum of the prices
of its items. -/
theorem C5_successful_order (users : List User) (products : List Product)
    (user_id : Int) (product_ids : List Int) (r : Nat) (u : User)
    (hu : users.find? (fun v => v.id == user_id) = some u) :
    ∃ o : Order,
      create_order users products
          (some { user_id := some user_id, product_ids := some product_ids })
          r =
        { status := 201, body := .orderB o, errors := [] } ∧
      1000 ≤ o.order_id ∧ o.order_id ≤ 9999 ∧
      o.user = u ∧ u ∈ users ∧ u.id = user_id ∧
      o.status = "completed" ∧
      o.total = (o.items.map Product.price).sum := by
  refine ⟨_, create_order_found users products user_id product_ids r u hu,
    (randint_bounds 1000 9999 r (by norm_num)).1,
    (randint_bounds 1000 9999 r (by norm_num)).2,
    rfl, List.mem_of_find?_eq_some hu, ?_, rfl, rfl⟩
  simpa using List.find?_some hu

/-- Witness for C5 at user 1, products `[1, 2]`, random source 0. -/
theorem C5_witness :
    ∃ o : Order,
      create_order users_db products_db
          (some { user_id := some 1, product_ids := some [1, 2] }) 0 =
        { status := 201, body := .orderB o, errors := [] } ∧
      1000 ≤ o.order_id ∧ o.order_id ≤ 9999 ∧
      o.user = { id := 1, name := "Alice", email := "alice@example.com" } ∧
      ({ id := 1, name := "Alice", email := "alice@example.com" } : User) ∈
        users_db ∧
      ({ id := 1, name := "Alice", email := "alice@example.com" } : User).id =
        1 ∧
      o.status = "completed" ∧
      o.total = (o.items.map Product.price).sum :=
  C5_successful_order users_db products_db 1 [1, 2] 0
    { id := 1, name := "Alice", email := "alice@example.com" } (by decide)

/-- C6: `GET /api/error` raises an exception with the fixed message
`"This is an intentional error for testing!"`; the global handler catches
it, so the response is always 500 with body `{"error": <that message>}`. -/
theorem C6_error_endpoint_500 :
    error_request.status = 500 ∧
    error_request.body = .errorB error_endpoint.2 ∧
    error_endpoint.2 = intentional_error_message ∧
    intentional_error_message =
      "This is an intentional error for testing!" :=
  ⟨rfl, rfl, rfl, rfl⟩

/-- C7 as stated is false: on a `GET /api/error` request, the increment made
by the global catch-all handler carries only the `error` label and no
`endpoint` label. -/
theorem C7_counterexample :
    ¬ (error_request.errors.all (fun ev => hasKey "endpoint" ev) = true) := by
  decide

/-- C7 amended: every error path increments `api_errors_total` with a label
naming the error kind, and every error path except the global catch-all
handler also labels the endpoint; the catch-all increments with only
`{error: "unhandled_exception"}`. -/
theorem C7_amended_error_labels (users : List User) (products : List Product)
    (uid pid : Int) (data : Option OrderBody) (r : Nat) (e : String) :
    ((get_user users uid).errors.all
      (fun ev => hasKey "error" ev && hasKey "endpoint" ev) = true) ∧
    ((get_product products pid).errors.all
      (fun ev => hasKey "error" ev && hasKey "endpoint" ev) = true) ∧
    ((create_order users products data r).errors.all
      (fun ev => hasKey "error" ev && hasKey "endpoint" ev) = true) ∧
    (error_endpoint.1.all
      (fun ev => hasKey "error" ev && hasKey "endpoint" ev) = true) ∧
    ((handle_exception e).errors = [[("error", "unhandled_exception")]]) ∧
    ((handle_exception e).errors.all (fun ev => hasKey "error" ev) = true) := by
  refine ⟨?_, ?_, ?_, by decide, rfl, rfl⟩
  · unfold get_user
    split <;> rfl
  · unfold get_product
    split <;> rfl
  · rcases data with _ | ⟨ui, pi⟩
    · rfl
    · rcases ui with _ | uid'
      · cases pi <;> rfl
      · cases pi with
        | none => rfl
        | some pids' =>
            rcases h : users.find? (fun u => u.id == uid') with _ | u
            · rw [create_order_user_none users products uid' pids' r h]
              rfl
            · rw [create_order_found users products uid' pids' r u h]
              rfl

/-- C8: no handler mutates the collections, so the state after any request
equals the state before it, and `GET /api/users` returns the same body after
any two request histories. -/
theorem C8_collections_immutable :
    (∀ (s : DB) (req : Request), (dispatch s req).2 = s) ∧
    (∀ (reqs₁ reqs₂ : List Request),
      (dispatch (runAll initDB reqs₁) Request.getUsers).1 =
        (dispatch (runAll initDB reqs₂) Request.getUsers).1) := by
  have hstep : ∀ (s : DB) (req : Request), (dispatch s req).2 = s := by
    intro s req
    cases req <;> rfl
  have hrun : ∀ (s : DB) (reqs : List Request), runAll s reqs = s := by
    intro s reqs
    induction reqs generalizing s with
    | nil => rfl
    | cons req rest ih =>
        rw [runAll, hstep]
        exact ih _
  exact ⟨hstep, fun l1 l2 => by rw [hrun, hrun]⟩

/-- C9: a `POST /api/order` with an existing user and a `product_ids` list
that is empty or matches no product still returns 201 with total `0`, an
empty items list and status `"completed"`. -/
theorem C9_order_no_items (user_id : Int) (product_ids : List Int) (r : Nat)
    (u : User) (hu : users_db.find? (fun v => v.id == user_id) = some u)
    (hp : ∀ pid ∈ product_ids, ∀ p ∈ products_db, p.id ≠ pid) :
    create_order users_db products_db
        (some { user_id := some user_id, product_ids := some product_ids })
        r =
      { status := 201,
        body := .orderB { order_id := randint 1000 9999 r, user := u,
                          items := [], total := 0, status := "completed" },
        errors := [] } := by
  have hm : matchedProducts products_db product_ids = [] := by
    rw [matchedProducts, List.filterMap_eq_nil_iff]
    intro pid hpid
    rw [List.find?_eq_none]
    intro p hpmem
    simpa using hp pid hpid p hpmem
  rw [create_order_found users_db products_db user_id product_ids r u hu, hm]
  rfl

/-- Witness for C9 at user 1 with the unmatched product list `[999]`. -/
theorem C9_witness :
    create_order users_db products_db
        (some { user_id := some 1, product_ids := some [999] }) 0 =
      { status := 201,
        body := .orderB
          { order_id := randint 1000 9999 0,
            user := { id := 1, name := "Alice",
                      email := "alice@example.com" },
            items := [], total := 0, status := "completed" },
        errors := [] } :=
  C9_order_no_items 1 [999] 0
    { id := 1, name := "Alice", email := "alice@example.com" }
    (by decide) (by decide)

/-- C10: one `GET /api/error` request increments `api_errors_total` exactly
twice: first with `{endpoint: "/api/error", error: "intentional"}` in the
handler before the raise, then with `{error: "unhandled_exception"}` in the
global exception handler. -/
theorem C10_error_counts_twice :
    error_request.errors =
      [[("endpoint", "/api/error"), ("error", "intentional")],
       [("error", "unhandled_exception")]] ∧
    error_request.errors.length = 2 :=
  ⟨rfl, rfl⟩
